import Mathlib

set_option autoImplicit false

/-!
Shallow embedding of the gint-extract utility (src/gint_extract/database.py and
src/gint_extract/extract.py).

The program opens an Access-format database through a driver, enumerates its
tables, filters a fixed denylist of system tables, keeps the non-empty ones,
and exports each to CSV files or into one SQLite database.

Modelling choices:
* the driver-visible source file is a `SourceDB`: the result of the cursor's
  table enumeration (which may raise, modelled with `Except`) together with a
  total content map giving, for each table name, the snapshot that
  `pd.read_sql("SELECT * FROM [t]")` materializes;
* a pandas DataFrame is a `TableSnapshot` (ordered column names plus rows of
  scalar values);
* CSV serialization is modelled at the record level: `to_csv` produces the
  list of records (header record first when `index` is false, pandas writes
  the column names; each data row is the row's values rendered as text);
* the filesystem is a list of existing directories (paths are component
  lists) and an association of file paths to CSV contents;
* Python attributes that the `except` branch of `__init__` leaves unassigned
  are `Option` fields holding `none`; reading such an attribute raises
  `PyError.attributeError`;
* the `SYSTEM_TABLES` constant lives in src/gint_extract/vars.py, which only
  declares a fixed list of names; the embedding is parametric in that list,
  so every theorem holds for the fixed denylist in particular.
-/

namespace GintExtract

/-- A scalar cell value as materialized by the tabular reader. -/
inductive Value where
  | intV (i : Int)
  | strV (s : String)
  | nullV
  deriving DecidableEq

/-- Type-to-text rendering used when a value is serialized to CSV. -/
def valueToText : Value → String
  | .intV i => toString i
  | .strV s => s
  | .nullV => ""

/-- A pandas DataFrame: ordered column names and rows of values. -/
structure TableSnapshot where
  columns : List String
  rows : List (List Value)
  deriving DecidableEq

/-- The source database as seen through the driver: the enumeration result of
`cursor.tables()` (which may raise) and the content each `SELECT *` returns. -/
structure SourceDB where
  enumTables : Except String (List String)
  content : String → TableSnapshot

/-- `pd.read_sql("SELECT * FROM [table]", cnxn)`: a full fresh read of the
table from the source. -/
def pd_read_sql (src : SourceDB) (table : String) : TableSnapshot :=
  src.content table

/-- A CSV file at the record level: a list of records, each a list of
textual fields. -/
abbrev Csv := List (List String)

/-- `DataFrame.to_csv`: header record then one record per row; with
`index := true` pandas would prepend the positional index column, the code
always passes `index := false`. -/
def TableSnapshot.to_csv (snap : TableSnapshot) (index : Bool) : Csv :=
  if index then
    ("" :: snap.columns) ::
      (snap.rows.enum.map (fun p => toString p.1 :: p.2.map valueToText))
  else
    snap.columns :: snap.rows.map (fun r => r.map valueToText)

/-- Reading a CSV file back: the first record is the header, the rest are the
data rows.  An empty file has no header and fails to parse. -/
def parse_csv : Csv → Option (List String × List (List String))
  | [] => none
  | header :: dataRows => some (header, dataRows)

/-- A filesystem path, as its list of components. -/
abbrev Path := List String

/-- The nonempty initial segments of a path: every ancestor directory of the
path, innermost last (the path itself included). -/
def initSegs : Path → List Path
  | [] => []
  | a :: rest => [a] :: (initSegs rest).map (fun q => a :: q)

/-- Association-list lookup keyed on the first component. -/
def assocLookup {α β : Type} [DecidableEq α] : List (α × β) → α → Option β
  | [], _ => none
  | (k, v) :: rest, a => if k = a then some v else assocLookup rest a

/-- Association-list update: bind `a` to `v`, dropping any previous binding. -/
def assocSet {α β : Type} [DecidableEq α] (l : List (α × β)) (a : α) (v : β) :
    List (α × β) :=
  (a, v) :: l.filter (fun e => e.1 ≠ a)

/-- The filesystem: the set of existing directories and the files with their
CSV contents. -/
structure FS where
  dirs : List Path
  files : List (Path × Csv)
  deriving DecidableEq

/-- `os.makedirs(p)`: create the directory and every missing ancestor. -/
def os_makedirs (fs : FS) (p : Path) : FS :=
  { fs with dirs := fs.dirs ++ (initSegs p).filter (fun q => q ∉ fs.dirs) }

/-- `check_dir` from database.py: create the directory (recursively) when it
does not already exist. -/
def check_dir (fs : FS) (dir_path : Path) : FS :=
  if dir_path ∈ fs.dirs then fs else os_makedirs fs dir_path

/-- A raised Python exception reaching the caller. -/
inductive PyError where
  | attributeError
  deriving DecidableEq

/-- The `GintDatabase` object: Python attributes that the lenient `except`
branch of `__init__` never assigns are `none`. -/
structure GintDatabase where
  file_path : String
  table_names : Option (List String)
  non_empty_tables : Option (List String)
  deriving DecidableEq

/-- `GintDatabase.get_table`: a full fresh read of the table. -/
def GintDatabase.get_table (src : SourceDB) (table : String) : TableSnapshot :=
  pd_read_sql src table

/-- `GintDatabase.table_length`: `len(pd.read_sql(...))`, the row count of a
fresh read. -/
def GintDatabase.table_length (src : SourceDB) (table : String) : Nat :=
  (pd_read_sql src table).rows.length

/-- `GintDatabase.__init__`: enumerate tables, filter the system-table
denylist, keep the names whose row count is positive.  If enumeration raises,
the exception is caught and logged and `__init__` returns with the two list
attributes never assigned. -/
def GintDatabase.init (src : SourceDB) (systemTables : List String)
    (fp : String) : GintDatabase :=
  match src.enumTables with
  | .error _ =>
      { file_path := fp, table_names := none, non_empty_tables := none }
  | .ok names =>
      let tns := names.filter (fun n => n ∉ systemTables)
      { file_path := fp
        table_names := some tns
        non_empty_tables :=
          some (tns.filter (fun t => GintDatabase.table_length src t > 0)) }

/-- `GintDatabase.write_table_to_csv`: ensure the directory exists, then write
the fresh table contents to `<directory>/<table>.csv` (no index column),
overwriting any file already at that path. -/
def GintDatabase.write_table_to_csv (src : SourceDB) (table : String)
    (directory : Path) (fs : FS) : FS :=
  let fs1 := check_dir fs directory
  { fs1 with
    files := assocSet fs1.files (directory ++ [table ++ ".csv"])
      ((GintDatabase.get_table src table).to_csv false) }

/-- `GintDatabase.write_all_tables_to_csv`: ensure the directory exists, then
export every non-empty table.  Reading the unassigned `non_empty_tables`
attribute raises `AttributeError` after the directory was already created. -/
def GintDatabase.write_all_tables_to_csv (src : SourceDB) (db : GintDatabase)
    (directory : Path) (fs : FS) : FS × Option PyError :=
  let fs1 := check_dir fs directory
  match db.non_empty_tables with
  | none => (fs1, some .attributeError)
  | some ts =>
      (ts.foldl (fun acc t => GintDatabase.write_table_to_csv src t directory acc)
        fs1, none)

/-- Insertion into a Python dict: an existing key keeps its position and gets
the new value, a new key is appended. -/
def dictInsert {β : Type} (d : List (String × β)) (k : String) (v : β) :
    List (String × β) :=
  if k ∈ d.map Prod.fst then
    d.map (fun e => if e.1 = k then (k, v) else e)
  else d ++ [(k, v)]

/-- `GintDatabase.dfs`: a dict mapping each non-empty table name to a fresh
read of its contents, in iteration order of `non_empty_tables`. -/
def GintDatabase.dfs (src : SourceDB) (db : GintDatabase) :
    Except PyError (List (String × TableSnapshot)) :=
  match db.non_empty_tables with
  | none => .error .attributeError
  | some ts =>
      .ok (ts.foldl (fun d t => dictInsert d t (GintDatabase.get_table src t)) [])

/-- A SQLite destination database: its tables by name. -/
structure SqliteDB where
  tables : List (String × TableSnapshot)
  deriving DecidableEq

/-- `DataFrame.to_sql(name, conn, if_exists="replace", index=False)`: any
existing table of that name is dropped and the snapshot written in its
place, without an index column. -/
def df_to_sql_replace (sqlite_conn : SqliteDB) (name : String)
    (snap : TableSnapshot) : SqliteDB :=
  { tables := assocSet sqlite_conn.tables name snap }

/-- `GintDatabase.write_table_to_sqlite`: fresh read, then replace-write into
the destination connection. -/
def GintDatabase.write_table_to_sqlite (src : SourceDB) (table : String)
    (sqlite_conn : SqliteDB) : SqliteDB :=
  df_to_sql_replace sqlite_conn table (GintDatabase.get_table src table)

/-- The world outside the source file: the filesystem and the SQLite files by
destination path. -/
structure World where
  fs : FS
  sqliteFiles : List (Path × SqliteDB)
  deriving DecidableEq

/-- `GintDatabase.write_all_tables_to_sqlite`: open (creating when absent) the
destination SQLite file, then export every non-empty table through the one
connection.  Reading the unassigned `non_empty_tables` attribute raises
`AttributeError` after the destination file already exists. -/
def GintDatabase.write_all_tables_to_sqlite (src : SourceDB)
    (db : GintDatabase) (destination_path : Path) (w : World) :
    World × Option PyError :=
  let sdb0 := (assocLookup w.sqliteFiles destination_path).getD { tables := [] }
  match db.non_empty_tables with
  | none =>
      ({ w with sqliteFiles := assocSet w.sqliteFiles destination_path sdb0 },
        some .attributeError)
  | some ts =>
      let sdb1 := ts.foldl
        (fun acc t => GintDatabase.write_table_to_sqlite src t acc) sdb0
      ({ w with sqliteFiles := assocSet w.sqliteFiles destination_path sdb1 },
        none)

/-- `main` from extract.py: construct the database object, then branch on the
`--format` value; any other value runs neither export branch.  The second
component is the exception propagating out of `main`, if any. -/
def main (src : SourceDB) (systemTables : List String) (file_path : String)
    (dir : Path) (format : String) (w : World) : World × Option PyError :=
  let db := GintDatabase.init src systemTables file_path
  if format = "csv" then
    let r := GintDatabase.write_all_tables_to_csv src db dir w.fs
    ({ w with fs := r.1 }, r.2)
  else if format = "sqlite" then
    GintDatabase.write_all_tables_to_sqlite src db dir w
  else (w, none)

/-- Process exit code of the CLI run: an uncaught exception terminates the
process with a nonzero code, otherwise the process exits with 0. -/
def exitCode : Option PyError → Nat
  | none => 0
  | some _ => 1

/-- One observable method call on a constructed `GintDatabase` object, used to
state that no call mutates the object. -/
inductive Op where
  | getTableOp (table : String)
  | tableLengthOp (table : String)
  | dfsOp
  | writeTableCsvOp (table : String) (directory : Path)
  | writeAllCsvOp (directory : Path)
  | writeTableSqliteOp (table : String) (destination_path : Path)
  | writeAllSqliteOp (destination_path : Path)

/-- Run one method call: the resulting object state (the Python methods assign
no attribute, so it is the input object), the world after the call, and the
exception propagating out of the call, if any. -/
def runOp (src : SourceDB) (db : GintDatabase) (w : World) :
    Op → GintDatabase × World × Option PyError
  | .getTableOp _ => (db, w, none)
  | .tableLengthOp _ => (db, w, none)
  | .dfsOp =>
      match GintDatabase.dfs src db with
      | .ok _ => (db, w, none)
      | .error e => (db, w, some e)
  | .writeTableCsvOp t d =>
      (db, { w with fs := GintDatabase.write_table_to_csv src t d w.fs }, none)
  | .writeAllCsvOp d =>
      let r := GintDatabase.write_all_tables_to_csv src db d w.fs
      (db, { w with fs := r.1 }, r.2)
  | .writeTableSqliteOp t dest =>
      let sdb0 := (assocLookup w.sqliteFiles dest).getD { tables := [] }
      let sdb1 := GintDatabase.write_table_to_sqlite src t sdb0
      (db, { w with sqliteFiles := assocSet w.sqliteFiles dest sdb1 }, none)
  | .writeAllSqliteOp dest =>
      let r := GintDatabase.write_all_tables_to_sqlite src db dest w
      (db, r.1, r.2)

/-! ### Concrete instances used to exercise the model -/

/-- An empty filesystem. -/
def emptyFS : FS := { dirs := [], files := [] }

/-- An empty outside world. -/
def emptyWorld : World := { fs := emptyFS, sqliteFiles := [] }

/-- A well-formed source: enumeration succeeds, `table1` holds two rows over
columns `col1`, `col2` and `table2` is empty (the scenario of the spec and of
database_test.py). -/
def sampleSrc : SourceDB where
  enumTables := .ok ["table1", "table2"]
  content := fun t =>
    if t = "table1" then
      { columns := ["col1", "col2"]
        rows := [[.intV 1, .intV 3], [.intV 2, .intV 4]] }
    else { columns := [], rows := [] }

/-- A source whose enumeration also reports a system table. -/
def sysSrc : SourceDB where
  enumTables := .ok ["MSysObjects", "table1", "table2"]
  content := fun t =>
    if t = "table1" then
      { columns := ["col1", "col2"]
        rows := [[.intV 1, .intV 3], [.intV 2, .intV 4]] }
    else { columns := [], rows := [] }

/-- A malformed source: table enumeration raises. -/
def badSrc : SourceDB where
  enumTables := .error "driver failure"
  content := fun _ => { columns := [], rows := [] }

/-! ### Helper lemmas about the embedded operations -/

theorem assocLookup_assocSet_self {α β : Type} [DecidableEq α]
    (l : List (α × β)) (a : α) (v : β) :
    assocLookup (assocSet l a v) a = some v := by
  simp [assocSet, assocLookup]

theorem assocLookup_filter_ne {α β : Type} [DecidableEq α]
    (l : List (α × β)) (a b : α) (hab : b ≠ a) :
    assocLookup (l.filter (fun e => e.1 ≠ b)) a = assocLookup l a := by
  induction l with
  | nil => rfl
  | cons e rest ih =>
      simp only [ne_eq, decide_not] at ih
      have hba : a ≠ b := fun h => hab h.symm
      by_cases he : e.1 = b
      · have hea : e.1 ≠ a := by rw [he]; exact hab
        simp [assocLookup, List.filter_cons, he, hea, hab, ih]
      · by_cases hka : e.1 = a
        · simp [assocLookup, List.filter_cons, he, hka, hba, ih]
        · simp [assocLookup, List.filter_cons, he, hka, ih]

theorem assocLookup_assocSet_ne {α β : Type} [DecidableEq α]
    (l : List (α × β)) (a b : α) (v : β) (hab : b ≠ a) :
    assocLookup (assocSet l b v) a = assocLookup l a := by
  simp only [assocSet, assocLookup, if_neg hab]
  exact assocLookup_filter_ne l a b hab

theorem assocLookup_append_right {α β : Type} [DecidableEq α]
    (l1 l2 : List (α × β)) (a : α) (h : a ∉ l1.map Prod.fst) :
    assocLookup (l1 ++ l2) a = assocLookup l2 a := by
  induction l1 with
  | nil => rfl
  | cons e rest ih =>
      have hne : e.1 ≠ a := by
        intro he
        exact h (by simp [he])
      have hrest : a ∉ rest.map Prod.fst := by
        intro hm
        exact h (by simp [hm])
      simpa [assocLookup, hne] using ih hrest

theorem assocLookup_append_single_ne {α β : Type} [DecidableEq α]
    (l : List (α × β)) (k a : α) (v : β) (h : k ≠ a) :
    assocLookup (l ++ [(k, v)]) a = assocLookup l a := by
  induction l with
  | nil => simp [assocLookup, h]
  | cons e rest ih =>
      by_cases he : e.1 = a
      · simp [assocLookup, he]
      · simp [assocLookup, he, ih]

theorem check_dir_files (fs : FS) (dir : Path) :
    (check_dir fs dir).files = fs.files := by
  unfold check_dir os_makedirs
  split <;> rfl

theorem self_mem_initSegs : ∀ (p : Path), p ≠ [] → p ∈ initSegs p
  | [], h => absurd rfl h
  | a :: rest, _ => by
      by_cases hr : rest = []
      · subst hr; simp [initSegs]
      · have hmem : rest ∈ initSegs rest := self_mem_initSegs rest hr
        have hmap : a :: rest ∈ (initSegs rest).map (fun q => a :: q) :=
          List.mem_map.2 ⟨rest, hmem, rfl⟩
        simp only [initSegs]
        exact List.mem_cons_of_mem _ hmap

theorem mem_os_makedirs (fs : FS) (p q : Path) (h : q ∈ initSegs p) :
    q ∈ (os_makedirs fs p).dirs := by
  by_cases hq : q ∈ fs.dirs
  · simp [os_makedirs, hq]
  · simp [os_makedirs, List.mem_filter, h, hq]

theorem csv_name_inj {u t : String} (h : u ++ ".csv" = t ++ ".csv") : u = t := by
  have hd : u.data ++ ".csv".data = t.data ++ ".csv".data := by
    rw [← String.data_append u ".csv", ← String.data_append t ".csv", h]
  exact String.ext (List.append_cancel_right hd)

theorem csv_path_inj {u t : String} {dir : Path}
    (h : dir ++ [u ++ ".csv"] = dir ++ [t ++ ".csv"]) : u = t := by
  have h1 : [u ++ ".csv"] = [t ++ ".csv"] := List.append_cancel_left h
  have h2 : u ++ ".csv" = t ++ ".csv" := by
    injection h1 with h2 _
  exact csv_name_inj h2

theorem write_table_to_csv_lookup_ne (src : SourceDB) (u t : String)
    (dir : Path) (fs : FS) (h : u ≠ t) :
    assocLookup (GintDatabase.write_table_to_csv src u dir fs).files
        (dir ++ [t ++ ".csv"]) =
      assocLookup fs.files (dir ++ [t ++ ".csv"]) := by
  unfold GintDatabase.write_table_to_csv
  rw [assocLookup_assocSet_ne, check_dir_files]
  intro heq
  exact h (csv_path_inj heq)

theorem foldl_write_csv_lookup (src : SourceDB) (dir : Path) (t : String) :
    ∀ (ts : List String) (fs : FS), t ∉ ts →
      assocLookup
        ((ts.foldl (fun acc u => GintDatabase.write_table_to_csv src u dir acc)
          fs).files) (dir ++ [t ++ ".csv"]) =
        assocLookup fs.files (dir ++ [t ++ ".csv"])
  | [], fs, _ => rfl
  | u :: rest, fs, h => by
      have hu : u ≠ t := by
        intro he
        exact h (by simp [he])
      have hrest : t ∉ rest := by
        intro hm
        exact h (by simp [hm])
      rw [List.foldl_cons,
        foldl_write_csv_lookup src dir t rest _ hrest,
        write_table_to_csv_lookup_ne src u t dir fs hu]

theorem write_table_to_sqlite_lookup_ne (src : SourceDB) (u t : String)
    (conn : SqliteDB) (h : u ≠ t) :
    assocLookup (GintDatabase.write_table_to_sqlite src u conn).tables t =
      assocLookup conn.tables t := by
  unfold GintDatabase.write_table_to_sqlite df_to_sql_replace
  exact assocLookup_assocSet_ne _ _ _ _ h

theorem foldl_write_sqlite_lookup (src : SourceDB) (t : String) :
    ∀ (ts : List String) (conn : SqliteDB), t ∉ ts →
      assocLookup
        ((ts.foldl (fun acc u => GintDatabase.write_table_to_sqlite src u acc)
          conn).tables) t = assocLookup conn.tables t
  | [], conn, _ => rfl
  | u :: rest, conn, h => by
      have hu : u ≠ t := by
        intro he
        exact h (by simp [he])
      have hrest : t ∉ rest := by
        intro hm
        exact h (by simp [hm])
      rw [List.foldl_cons,
        foldl_write_sqlite_lookup src t rest _ hrest,
        write_table_to_sqlite_lookup_ne src u t conn hu]

theorem assocLookup_map_replace {β : Type} (d : List (String × β))
    (k u : String) (v : β) (h : k ≠ u) :
    assocLookup (d.map (fun e => if e.1 = k then (k, v) else e)) u =
      assocLookup d u := by
  induction d with
  | nil => rfl
  | cons e rest ih =>
      simp only [List.map_cons]
      by_cases he : e.1 = k
      · rw [if_pos he]
        have heu : e.1 ≠ u := by rw [he]; exact h
        simp [assocLookup, h, heu, ih]
      · rw [if_neg he]
        by_cases heu : e.1 = u
        · simp [assocLookup, heu, ih]
        · simp [assocLookup, heu, ih]

theorem assocLookup_dictInsert_ne {β : Type} (d : List (String × β))
    (k u : String) (v : β) (h : k ≠ u) :
    assocLookup (dictInsert d k v) u = assocLookup d u := by
  unfold dictInsert
  split
  · exact assocLookup_map_replace d k u v h
  · exact assocLookup_append_single_ne d k u v h

theorem dictInsert_not_mem {β : Type} (d : List (String × β)) (k : String)
    (v : β) (h : k ∉ d.map Prod.fst) : dictInsert d k v = d ++ [(k, v)] := by
  simp [dictInsert, h]

theorem dfs_fold_keys (src : SourceDB) :
    ∀ (ts : List String) (acc : List (String × TableSnapshot)),
      ts.Nodup → (∀ u ∈ ts, u ∉ acc.map Prod.fst) →
      ((ts.foldl (fun d t => dictInsert d t (GintDatabase.get_table src t))
          acc).map Prod.fst) = acc.map Prod.fst ++ ts
  | [], acc, _, _ => by simp
  | t :: rest, acc, hnd, hdisj => by
      have hknot : t ∉ acc.map Prod.fst := hdisj t (by simp)
      have hstep : dictInsert acc t (GintDatabase.get_table src t)
          = acc ++ [(t, GintDatabase.get_table src t)] :=
        dictInsert_not_mem _ _ _ hknot
      have hdisj2 : ∀ u ∈ rest,
          u ∉ (acc ++ [(t, GintDatabase.get_table src t)]).map Prod.fst := by
        intro u hu
        have hut : u ≠ t := fun he => (List.nodup_cons.1 hnd).1 (he ▸ hu)
        have hua : u ∉ acc.map Prod.fst := hdisj u (by simp [hu])
        simp [hua, hut]
      have ih := dfs_fold_keys src rest
        (acc ++ [(t, GintDatabase.get_table src t)]) hnd.of_cons hdisj2
      rw [List.foldl_cons, hstep, ih]
      simp

theorem dfs_fold_lookup_not_mem (src : SourceDB) :
    ∀ (ts : List String) (acc : List (String × TableSnapshot)) (u : String),
      u ∉ ts →
      assocLookup
        (ts.foldl (fun d t => dictInsert d t (GintDatabase.get_table src t))
          acc) u = assocLookup acc u
  | [], _, _, _ => rfl
  | t :: rest, acc, u, h => by
      have hut : t ≠ u := fun he => h (by simp [he])
      have hrest : u ∉ rest := fun hm => h (by simp [hm])
      rw [List.foldl_cons, dfs_fold_lookup_not_mem src rest _ u hrest,
        assocLookup_dictInsert_ne acc t u _ hut]

theorem dfs_fold_lookup_mem (src : SourceDB) :
    ∀ (ts : List String) (acc : List (String × TableSnapshot)) (u : String),
      ts.Nodup → (∀ x ∈ ts, x ∉ acc.map Prod.fst) → u ∈ ts →
      assocLookup
        (ts.foldl (fun d t => dictInsert d t (GintDatabase.get_table src t))
          acc) u = some (GintDatabase.get_table src u)
  | [], _, _, _, _, hu => absurd hu (by simp)
  | t :: rest, acc, u, hnd, hdisj, hu => by
      have hknot : t ∉ acc.map Prod.fst := hdisj t (by simp)
      have hstep : dictInsert acc t (GintDatabase.get_table src t)
          = acc ++ [(t, GintDatabase.get_table src t)] :=
        dictInsert_not_mem _ _ _ hknot
      rw [List.foldl_cons, hstep]
      by_cases hut : u = t
      · subst hut
        have hnr : u ∉ rest := (List.nodup_cons.1 hnd).1
        rw [dfs_fold_lookup_not_mem src rest _ u hnr,
          assocLookup_append_right acc _ u hknot]
        simp [assocLookup]
      · have hur : u ∈ rest := by
          rcases List.mem_cons.1 hu with h1 | h1
          · exact absurd h1 hut
          · exact h1
        have hdisj2 : ∀ x ∈ rest,
            x ∉ (acc ++ [(t, GintDatabase.get_table src t)]).map Prod.fst := by
          intro x hx
          have hxt : x ≠ t := fun he => (List.nodup_cons.1 hnd).1 (he ▸ hx)
          have hxa : x ∉ acc.map Prod.fst := hdisj x (by simp [hx])
          simp [hxa, hxt]
        exact dfs_fold_lookup_mem src rest _ u hnd.of_cons hdisj2 hur

theorem init_ok (src : SourceDB) (systemTables : List String) (fp : String)
    (names : List String) (henum : src.enumTables = .ok names) :
    GintDatabase.init src systemTables fp =
      { file_path := fp
        table_names := some (names.filter (fun n => n ∉ systemTables))
        non_empty_tables :=
          some ((names.filter (fun n => n ∉ systemTables)).filter
            (fun t => GintDatabase.table_length src t > 0)) } := by
  unfold GintDatabase.init
  rw [henum]

theorem write_all_tables_to_csv_some (src : SourceDB) (db : GintDatabase)
    (l : List String) (dir : Path) (fs : FS)
    (h : db.non_empty_tables = some l) :
    GintDatabase.write_all_tables_to_csv src db dir fs =
      (l.foldl (fun acc u => GintDatabase.write_table_to_csv src u dir acc)
        (check_dir fs dir), none) := by
  unfold GintDatabase.write_all_tables_to_csv
  rw [h]

theorem write_all_tables_to_sqlite_some (src : SourceDB) (db : GintDatabase)
    (l : List String) (dest : Path) (w : World)
    (h : db.non_empty_tables = some l) :
    (GintDatabase.write_all_tables_to_sqlite src db dest w).1.fs = w.fs ∧
    (GintDatabase.write_all_tables_to_sqlite src db dest w).1.sqliteFiles =
      assocSet w.sqliteFiles dest
        (l.foldl (fun acc u => GintDatabase.write_table_to_sqlite src u acc)
          ((assocLookup w.sqliteFiles dest).getD { tables := [] })) ∧
    (GintDatabase.write_all_tables_to_sqlite src db dest w).2 = none := by
  unfold GintDatabase.write_all_tables_to_sqlite
  rw [h]
  exact ⟨rfl, rfl, rfl⟩

/-! ### Claim theorems -/

/-- Claim C8: for every table name, `table_length` returns exactly the number
of rows of the `TableSnapshot` that `get_table` returns for the same source
state, and it recomputes the count by a fresh read of whatever source state
holds at call time rather than caching. -/
theorem table_length_eq_get_table_rows (src srcNow : SourceDB) (t : String) :
    GintDatabase.table_length src t =
      (GintDatabase.get_table src t).rows.length ∧
    GintDatabase.table_length srcNow t = (pd_read_sql srcNow t).rows.length :=
  ⟨rfl, rfl⟩

/-- Claim C5: exporting the same table to SQLite twice yields the same
destination state as a single export, and the destination table of that name
ends up holding exactly the exported snapshot: any pre-existing table of the
name is replaced, never appended to. -/
theorem write_table_to_sqlite_idempotent (src : SourceDB) (t : String)
    (conn : SqliteDB) :
    GintDatabase.write_table_to_sqlite src t
        (GintDatabase.write_table_to_sqlite src t conn) =
      GintDatabase.write_table_to_sqlite src t conn ∧
    assocLookup (GintDatabase.write_table_to_sqlite src t conn).tables t =
      some (GintDatabase.get_table src t) := by
  constructor
  · unfold GintDatabase.write_table_to_sqlite df_to_sql_replace assocSet
    simp [List.filter_cons, List.filter_filter]
  · exact assocLookup_assocSet_self _ _ _

/-- Claim C2: for every `--format` value other than csv and sqlite, `main`
runs neither export branch: the world is untouched, no exception escapes, and
the process exits with code 0. -/
theorem invalid_format_is_silent_no_op (src : SourceDB)
    (systemTables : List String) (fp : String) (dir : Path) (format : String)
    (w : World) (h1 : format ≠ "csv") (h2 : format ≠ "sqlite") :
    main src systemTables fp dir format w = (w, none) ∧
    exitCode (main src systemTables fp dir format w).2 = 0 := by
  have hm : main src systemTables fp dir format w = (w, none) := by
    simp [main, h1, h2]
  exact ⟨hm, by rw [hm]; rfl⟩

/-- Witness for C2 at a concrete run with `--format xml`. -/
theorem invalid_format_is_silent_no_op_witness :
    ("xml" ≠ "csv") ∧ ("xml" ≠ "sqlite") ∧
    (main sampleSrc [] "data.mdb" ["out"] "xml" emptyWorld =
        (emptyWorld, none) ∧
      exitCode (main sampleSrc [] "data.mdb" ["out"] "xml" emptyWorld).2 = 0) :=
  ⟨by decide, by decide,
    invalid_format_is_silent_no_op sampleSrc [] "data.mdb" ["out"] "xml"
      emptyWorld (by decide) (by decide)⟩

/-- Claim C1 evaluated at a failing input: when table enumeration raises, the
constructed object has no table-name attributes at all (not an empty list),
and the next `write_all_tables_to_csv` call both creates the output directory
and raises `AttributeError` — it is not an error-free no-op. -/
theorem enumeration_failure_not_a_silent_no_op :
    (GintDatabase.init badSrc [] "bad.mdb").table_names = none ∧
    (GintDatabase.init badSrc [] "bad.mdb").non_empty_tables = none ∧
    (GintDatabase.write_all_tables_to_csv badSrc
        (GintDatabase.init badSrc [] "bad.mdb") ["out"] emptyFS).2 =
      some PyError.attributeError ∧
    ["out"] ∈ (GintDatabase.write_all_tables_to_csv badSrc
        (GintDatabase.init badSrc [] "bad.mdb") ["out"] emptyFS).1.dirs := by
  refine ⟨rfl, rfl, rfl, ?_⟩
  simp [GintDatabase.write_all_tables_to_csv, GintDatabase.init, badSrc,
    check_dir, os_makedirs, initSegs, emptyFS]

/-- Claim C9: no method call mutates the constructed object (in particular
`non_empty_tables` is fixed at construction), and every export reads the
table content fresh from the source state at call time: the file and the
destination table written hold the content of the source passed to the call,
whatever it is. -/
theorem object_state_fixed_and_reads_fresh (src : SourceDB)
    (db : GintDatabase) (w : World) (op : Op) (srcNow : SourceDB)
    (t : String) (dir : Path) (fs : FS) (conn : SqliteDB) :
    (runOp src db w op).1 = db ∧
    assocLookup (GintDatabase.write_table_to_csv srcNow t dir fs).files
        (dir ++ [t ++ ".csv"]) = some ((srcNow.content t).to_csv false) ∧
    assocLookup (GintDatabase.write_table_to_sqlite srcNow t conn).tables t =
      some (srcNow.content t) := by
  refine ⟨?_, ?_, ?_⟩
  · cases op with
    | dfsOp =>
        unfold runOp
        cases GintDatabase.dfs src db <;> rfl
    | getTableOp t => rfl
    | tableLengthOp t => rfl
    | writeTableCsvOp t d => rfl
    | writeAllCsvOp d => rfl
    | writeTableSqliteOp t d => rfl
    | writeAllSqliteOp d => rfl
  · unfold GintDatabase.write_table_to_csv
    exact assocLookup_assocSet_self _ _ _
  · exact assocLookup_assocSet_self _ _ _

/-- Claim C3: after a successful construction, `table_names` is exactly the
driver enumeration with every denylisted name removed, in the enumeration
order: it is a sublist of the enumeration (order preserved) and each name
occurs as often as in the enumeration, denylisted names not at all. -/
theorem table_names_is_ordered_denylist_filter (src : SourceDB)
    (systemTables : List String) (fp : String) (names tns : List String)
    (henum : src.enumTables = .ok names)
    (htns : (GintDatabase.init src systemTables fp).table_names = some tns) :
    List.Sublist tns names ∧
    ∀ t : String, List.count t tns =
      if t ∈ systemTables then 0 else List.count t names := by
  rw [init_ok src systemTables fp names henum] at htns
  have h2 : some (names.filter (fun n => n ∉ systemTables)) = some tns := htns
  have h3 : names.filter (fun n => n ∉ systemTables) = tns :=
    Option.some.injEq _ _ ▸ h2
  subst h3
  constructor
  · exact List.filter_sublist names
  · intro t
    by_cases ht : t ∈ systemTables
    · rw [if_pos ht]
      apply List.count_eq_zero.2
      intro hmem
      have hp := (List.mem_filter.1 hmem).2
      simp [ht] at hp
    · rw [if_neg ht]
      exact List.count_filter (by simp [ht])

/-- Witness for C3 on a source that also reports a system table. -/
theorem table_names_is_ordered_denylist_filter_witness :
    sysSrc.enumTables = Except.ok ["MSysObjects", "table1", "table2"] ∧
    (GintDatabase.init sysSrc ["MSysObjects"] "data.mdb").table_names =
      some ["table1", "table2"] ∧
    (List.Sublist ["table1", "table2"] ["MSysObjects", "table1", "table2"] ∧
      ∀ t : String, List.count t ["table1", "table2"] =
        if t ∈ ["MSysObjects"] then 0
        else List.count t ["MSysObjects", "table1", "table2"]) :=
  ⟨rfl, by decide,
    table_names_is_ordered_denylist_filter sysSrc ["MSysObjects"] "data.mdb"
      ["MSysObjects", "table1", "table2"] ["table1", "table2"] rfl (by decide)⟩

/-- Claim C4: a table with row count 0 is absent from `non_empty_tables`, and
neither the CSV export nor the SQLite export produces an output file or a
destination table for it. -/
theorem empty_tables_never_exported (src : SourceDB)
    (systemTables : List String) (fp : String) (names : List String)
    (t : String) (dir dest : Path) (fs : FS) (w : World)
    (henum : src.enumTables = .ok names)
    (hlen : GintDatabase.table_length src t = 0) :
    (∀ l, (GintDatabase.init src systemTables fp).non_empty_tables = some l →
      t ∉ l) ∧
    (assocLookup fs.files (dir ++ [t ++ ".csv"]) = none →
      assocLookup (GintDatabase.write_all_tables_to_csv src
          (GintDatabase.init src systemTables fp) dir fs).1.files
        (dir ++ [t ++ ".csv"]) = none) ∧
    (∀ sdb : SqliteDB,
      assocLookup ((assocLookup w.sqliteFiles dest).getD
        { tables := [] }).tables t = none →
      assocLookup (GintDatabase.write_all_tables_to_sqlite src
          (GintDatabase.init src systemTables fp) dest w).1.sqliteFiles dest =
        some sdb →
      assocLookup sdb.tables t = none) := by
  have hdb := init_ok src systemTables fp names henum
  have hne : (GintDatabase.init src systemTables fp).non_empty_tables =
      some ((names.filter (fun n => n ∉ systemTables)).filter
        (fun u => GintDatabase.table_length src u > 0)) := by
    rw [hdb]
  have htl : t ∉ (names.filter (fun n => n ∉ systemTables)).filter
      (fun u => GintDatabase.table_length src u > 0) := by
    intro hmem
    have hp := (List.mem_filter.1 hmem).2
    simp [hlen] at hp
  refine ⟨?_, ?_, ?_⟩
  · intro l hl
    rw [hne] at hl
    have h3 : (names.filter (fun n => n ∉ systemTables)).filter
        (fun u => GintDatabase.table_length src u > 0) = l :=
      Option.some.injEq _ _ ▸ hl
    rw [← h3]
    exact htl
  · intro hnone
    rw [write_all_tables_to_csv_some src _ _ dir fs hne]
    rw [foldl_write_csv_lookup src dir t _ _ htl, check_dir_files]
    exact hnone
  · intro sdb h0 hsdb
    rw [(write_all_tables_to_sqlite_some src _ _ dest w hne).2.1] at hsdb
    rw [assocLookup_assocSet_self] at hsdb
    have h3 := Option.some.injEq _ _ ▸ hsdb
    rw [← h3]
    rw [foldl_write_sqlite_lookup src t _ _ htl]
    exact h0

/-- Witness for C4: in the sample source, `table2` has zero rows and is
exported nowhere. -/
theorem empty_tables_never_exported_witness :
    sampleSrc.enumTables = Except.ok ["table1", "table2"] ∧
    GintDatabase.table_length sampleSrc "table2" = 0 ∧
    ((∀ l, (GintDatabase.init sampleSrc [] "data.mdb").non_empty_tables =
        some l → "table2" ∉ l) ∧
      (assocLookup emptyFS.files (["out"] ++ ["table2" ++ ".csv"]) = none →
        assocLookup (GintDatabase.write_all_tables_to_csv sampleSrc
            (GintDatabase.init sampleSrc [] "data.mdb") ["out"]
            emptyFS).1.files (["out"] ++ ["table2" ++ ".csv"]) = none) ∧
      (∀ sdb : SqliteDB,
        assocLookup ((assocLookup emptyWorld.sqliteFiles ["gint.db"]).getD
          { tables := [] }).tables "table2" = none →
        assocLookup (GintDatabase.write_all_tables_to_sqlite sampleSrc
            (GintDatabase.init sampleSrc [] "data.mdb") ["gint.db"]
            emptyWorld).1.sqliteFiles ["gint.db"] = some sdb →
        assocLookup sdb.tables "table2" = none)) :=
  ⟨rfl, rfl,
    empty_tables_never_exported sampleSrc [] "data.mdb" ["table1", "table2"]
      "table2" ["out"] ["gint.db"] emptyFS emptyWorld rfl rfl⟩

/-- Claim C6: for a table in the non-empty set, exporting it with
`write_table_to_csv` and parsing the file back yields the same columns and
the same row values (rendered as text) as `get_table` returned, with no added
index column. -/
theorem csv_round_trip (src : SourceDB) (db : GintDatabase)
    (ts : List String) (t : String) (dir : Path) (fs : FS)
    (hts : db.non_empty_tables = some ts) (ht : t ∈ ts) :
    ∃ c : Csv,
      assocLookup (GintDatabase.write_table_to_csv src t dir fs).files
          (dir ++ [t ++ ".csv"]) = some c ∧
      parse_csv c = some ((GintDatabase.get_table src t).columns,
        (GintDatabase.get_table src t).rows.map
          (fun r => r.map valueToText)) := by
  refine ⟨(GintDatabase.get_table src t).to_csv false, ?_, ?_⟩
  · unfold GintDatabase.write_table_to_csv
    exact assocLookup_assocSet_self _ _ _
  · rfl

/-- Witness for C6: the round trip at the sample source's `table1`. -/
theorem csv_round_trip_witness :
    (GintDatabase.init sampleSrc [] "data.mdb").non_empty_tables =
      some ["table1"] ∧
    "table1" ∈ ["table1"] ∧
    (∃ c : Csv,
      assocLookup (GintDatabase.write_table_to_csv sampleSrc "table1" ["out"]
          emptyFS).files (["out"] ++ ["table1" ++ ".csv"]) = some c ∧
      parse_csv c = some ((GintDatabase.get_table sampleSrc "table1").columns,
        (GintDatabase.get_table sampleSrc "table1").rows.map
          (fun r => r.map valueToText))) :=
  ⟨by decide, by decide,
    csv_round_trip sampleSrc (GintDatabase.init sampleSrc [] "data.mdb")
      ["table1"] "table1" ["out"] emptyFS (by decide) (by decide)⟩

/-- Claim C7: `write_table_to_csv` ensures the directory exists (creating
every missing intermediate directory when it does not), and writes the table
as records with the header row first and no index column to
`<directory>/<table>.csv`, overwriting whatever file was there (the
filesystem `fs` is arbitrary, so in particular one already holding a file at
that path). -/
theorem write_table_to_csv_creates_dir_and_file (src : SourceDB)
    (t : String) (dir : Path) (fs : FS) (hdir : dir ≠ []) :
    dir ∈ (GintDatabase.write_table_to_csv src t dir fs).dirs ∧
    (dir ∉ fs.dirs → ∀ q ∈ initSegs dir,
      q ∈ (GintDatabase.write_table_to_csv src t dir fs).dirs) ∧
    assocLookup (GintDatabase.write_table_to_csv src t dir fs).files
        (dir ++ [t ++ ".csv"]) =
      some ((GintDatabase.get_table src t).columns ::
        (GintDatabase.get_table src t).rows.map
          (fun r => r.map valueToText)) := by
  have hdirs : (GintDatabase.write_table_to_csv src t dir fs).dirs =
      (check_dir fs dir).dirs := rfl
  refine ⟨?_, ?_, ?_⟩
  · rw [hdirs]
    unfold check_dir
    by_cases h : dir ∈ fs.dirs
    · rw [if_pos h]; exact h
    · rw [if_neg h]
      exact mem_os_makedirs fs dir dir (self_mem_initSegs dir hdir)
  · intro h q hq
    rw [hdirs]
    unfold check_dir
    rw [if_neg h]
    exact mem_os_makedirs fs dir q hq
  · unfold GintDatabase.write_table_to_csv
    exact assocLookup_assocSet_self _ _ _

/-- Witness for C7: exporting into a missing nested directory. -/
theorem write_table_to_csv_creates_dir_and_file_witness :
    (["out", "nested"] : Path) ≠ [] ∧
    (["out", "nested"] ∈ (GintDatabase.write_table_to_csv sampleSrc "table1"
        ["out", "nested"] emptyFS).dirs ∧
      (["out", "nested"] ∉ emptyFS.dirs → ∀ q ∈ initSegs ["out", "nested"],
        q ∈ (GintDatabase.write_table_to_csv sampleSrc "table1"
          ["out", "nested"] emptyFS).dirs) ∧
      assocLookup (GintDatabase.write_table_to_csv sampleSrc "table1"
          ["out", "nested"] emptyFS).files
          (["out", "nested"] ++ ["table1" ++ ".csv"]) =
        some ((GintDatabase.get_table sampleSrc "table1").columns ::
          (GintDatabase.get_table sampleSrc "table1").rows.map
            (fun r => r.map valueToText))) :=
  ⟨by decide,
    write_table_to_csv_creates_dir_and_file sampleSrc "table1"
      ["out", "nested"] emptyFS (by decide)⟩

/-- Claim C10: when `non_empty_tables` holds distinct names (the driver
reports each table once), `dfs` returns a dict whose keys are exactly those
names in iteration order, each mapped to the snapshot `get_table` returns at
call time; any other name is absent. -/
theorem dfs_keys_and_values (src : SourceDB) (db : GintDatabase)
    (ts : List String) (hts : db.non_empty_tables = some ts)
    (hnd : ts.Nodup) :
    ∃ d : List (String × TableSnapshot),
      GintDatabase.dfs src db = .ok d ∧
      d.map Prod.fst = ts ∧
      (∀ t ∈ ts, assocLookup d t = some (GintDatabase.get_table src t)) ∧
      (∀ t : String, t ∉ ts → assocLookup d t = none) := by
  refine ⟨ts.foldl (fun d t => dictInsert d t (GintDatabase.get_table src t))
    [], ?_, ?_, ?_, ?_⟩
  · unfold GintDatabase.dfs
    rw [hts]
  · simpa using dfs_fold_keys src ts [] hnd (by simp)
  · intro t htm
    exact dfs_fold_lookup_mem src ts [] t hnd (by simp) htm
  · intro t htm
    rw [dfs_fold_lookup_not_mem src ts [] t htm]
    rfl

/-- Witness for C10 on the sample source. -/
theorem dfs_keys_and_values_witness :
    (GintDatabase.init sampleSrc [] "data.mdb").non_empty_tables =
      some ["table1"] ∧
    (["table1"] : List String).Nodup ∧
    (∃ d : List (String × TableSnapshot),
      GintDatabase.dfs sampleSrc
          (GintDatabase.init sampleSrc [] "data.mdb") = .ok d ∧
      d.map Prod.fst = ["table1"] ∧
      (∀ t ∈ ["table1"],
        assocLookup d t = some (GintDatabase.get_table sampleSrc t)) ∧
      (∀ t : String, t ∉ ["table1"] → assocLookup d t = none)) :=
  ⟨by decide, by decide,
    dfs_keys_and_values sampleSrc (GintDatabase.init sampleSrc [] "data.mdb")
      ["table1"] (by decide) (by decide)⟩

end GintExtract
